import Mathlib

/-!
Verification of the bounded tool-calling orchestration of
`backend/ai_generator.py`, together with the tool registry and content
search tool contracts of the surrounding system, stated over a shallow
embedding of the code.  The Generation Client is modelled as the sequence
of outcomes of the successive API calls of one top-level query, and every
run additionally records the parameters of each call it issues, so that
call counts, attached tool schemas and transcripts are observable.
-/

namespace AIGenerator

/-- Keyword arguments of a tool call (`content_block.input` in the
source), modelled as an association list. -/
abbrev Args := List (String × String)

/-- One content block of a model response (an element of
`response.content`). -/
structure ContentBlock where
  type : String
  text : String
  name : String
  input : Args
  id : String
  deriving Inhabited, DecidableEq

/-- A model response: stop reason and content blocks. -/
structure ModelResponse where
  stop_reason : String
  content : List ContentBlock
  deriving Inhabited, DecidableEq

/-- Outcome of one Generation Client call: a response, or a raised
transport/provider exception. -/
inductive ClientResult where
  | ok : ModelResponse → ClientResult
  | err : ClientResult
  deriving Inhabited, DecidableEq

/-- The Generation Client of one query, modelled as the sequence of
outcomes of the successive `self.client.messages.create` calls. -/
abbrev Client := Nat → ClientResult

/-- The duck-typed tool manager the orchestrator receives: the source
only calls `execute_tool(name, **kwargs)` on it. -/
structure ToolManager where
  execute_tool : String → Args → String

/-- A tool schema, carried opaquely to the Generation Client. -/
structure ToolSchema where
  name : String
  deriving Inhabited, DecidableEq

/-- One `tool_result` entry built in `_handle_tool_execution`
(lines 143-147). -/
structure ToolResult where
  tool_use_id : String
  content : String
  deriving Inhabited, DecidableEq

/-- Content of one transcript message. -/
inductive MsgContent where
  | text : String → MsgContent
  | blocks : List ContentBlock → MsgContent
  | results : List ToolResult → MsgContent
  deriving Inhabited, DecidableEq

/-- One transcript message (a `{"role", "content"}` dict in the
source). -/
structure Message where
  role : String
  content : MsgContent
  deriving Inhabited, DecidableEq

/-- Parameters of one Generation Client call; `tools = none` means the
`tools` key is absent from the request, and `tool_choice` records
whether the auto tool-choice directive was attached. -/
structure ApiParams where
  messages : List Message
  system : String
  tools : Option (List ToolSchema)
  tool_choice : Bool
  deriving Inhabited, DecidableEq

/-- Result of one top-level query: final text, the parameters of every
Generation Client call issued (in order, failed attempts included), and
the final round counter. -/
structure GenOutcome where
  text : String
  trace : List ApiParams
  rounds : Nat
  deriving Inhabited, DecidableEq

/-- State of the sequential tool execution loop of
`_handle_tool_execution`. -/
structure LoopState where
  messages : List Message
  current : ModelResponse
  round_count : Nat
  trace : List ApiParams
  deriving Inhabited

/-- The static system prompt of `AIGenerator` (lines 8-46). -/
def SYSTEM_PROMPT : String := " You are an AI assistant specialized in course materials and educational content with access to comprehensive tools for course information.

Available Tools:
- **Content Search Tool**: For searching specific course content and detailed educational materials
- **Course Outline Tool**: For getting course outlines with title, course link, instructor, and complete lesson lists (numbers and titles)

Tool Usage Guidelines:
- **Sequential Tool Calls**: You can make up to 2 rounds of tool calls to gather comprehensive information
- **Multi-step Queries**: For complex questions, use the first tool call to gather initial information, then use a second call if needed based on those results
- **Content questions**: Use the content search tool for specific course material questions
- **Outline questions**: Use the outline tool for course structure, lesson lists, or course overview requests
- **Comparative queries**: First gather information about each subject, then compare
- **Follow-up searches**: If initial results suggest related topics or courses, make additional targeted searches
- Synthesize results from all tool calls into accurate, fact-based responses
- If tools yield no results, state this clearly without offering alternatives

Sequential Tool Call Examples:
- \"Compare topic X in course A with course B\" → Search course A for topic X, then search course B for topic X
- \"Find courses similar to lesson 5 of course Y\" → Get outline of course Y to understand lesson 5, then search for similar content
- \"What topics are covered after lesson 3 in course Z\" → Get course Z outline, then search for content in later lessons

Response Protocol:
- **General knowledge questions**: Answer using existing knowledge without using tools
- **Course-specific questions**: Use appropriate tool(s) first, then answer
- **Course outline requests**: Always use the outline tool to provide course title, course link, and complete lesson information
- **Complex queries**: Use sequential tool calls to gather comprehensive information before responding
- **No meta-commentary**:
 - Provide direct answers only — no reasoning process, tool explanations, or question-type analysis
 - Do not mention \"based on the search results\" or \"using the outline tool\"
 - Do not explain your tool usage strategy

All responses must be:
1. **Brief, Concise and focused** - Get to the point quickly
2. **Educational** - Maintain instructional value
3. **Clear** - Use accessible language
4. **Example-supported** - Include relevant examples when they aid understanding
5. **Comprehensive** - Use multiple tool calls when needed for complete answers
Provide only the direct answer to what was asked.
"

/-- Text of the first content block of a response
(`response.content[0].text`; the source indexes unconditionally, and
every claim uses it on non-empty content). -/
def firstText (r : ModelResponse) : String :=
  (r.content.headD default).text

/-- The `tool_use` blocks of a response content list, in order
(the blocks selected by the filter at line 137). -/
def toolUseBlocks (content : List ContentBlock) : List ContentBlock :=
  content.filter (fun b => b.type == "tool_use")

/-- The tool results collected for one dispatch batch (lines 134-147):
one result per `tool_use` block, in request order, the id copied from
the request and the content produced by `tool_manager.execute_tool`. -/
def toolResultsOf (tm : ToolManager) (content : List ContentBlock) : List ToolResult :=
  (toolUseBlocks content).map (fun b => ⟨b.id, tm.execute_tool b.name b.input⟩)

/-- The `while` loop of `_handle_tool_execution` (lines 125-172).  The
`fuel` argument only pads the structural recursion: the loop is always
entered with `fuel = max_rounds` and the round counter at 0, and every
iteration increments the counter and decrements the fuel, so when the
fuel reaches 0 the loop guard `round_count < max_rounds` is already
false and returning the state unchanged agrees with the source. -/
def handleLoop (client : Client) (tm : ToolManager) (sys : String)
    (base_tools : Option (List ToolSchema)) (max_rounds : Nat) :
    Nat → List Message → ModelResponse → Nat → List ApiParams → LoopState
  | 0, msgs, cur, rc, trace => ⟨msgs, cur, rc, trace⟩
  | fuel + 1, msgs, cur, rc, trace =>
    if rc < max_rounds ∧ cur.stop_reason = "tool_use" then
      let msgs1 := msgs ++ [⟨"assistant", MsgContent.blocks cur.content⟩]
      let trs := toolResultsOf tm cur.content
      let msgs2 := if trs.isEmpty then msgs1 else msgs1 ++ [⟨"user", MsgContent.results trs⟩]
      if max_rounds ≤ rc + 1 then ⟨msgs2, cur, rc + 1, trace⟩
      else
        let next_params : ApiParams := ⟨msgs2, sys, some (base_tools.getD []), true⟩
        match client trace.length with
        | ClientResult.err => ⟨msgs2, cur, rc + 1, trace ++ [next_params]⟩
        | ClientResult.ok r =>
          handleLoop client tm sys base_tools max_rounds fuel msgs2 r (rc + 1)
            (trace ++ [next_params])
    else ⟨msgs, cur, rc, trace⟩

/-- The tail of `_handle_tool_execution` after the loop (lines 174-191):
return the current response text if the loop exited on a response that
requests no tool use, otherwise issue one final call without tools and
degrade to the fixed apology string if it raises. -/
def handleFinal (client : Client) (sys : String) (st : LoopState) : GenOutcome :=
  if st.current.stop_reason ≠ "tool_use" then ⟨firstText st.current, st.trace, st.round_count⟩
  else
    let final_params : ApiParams := ⟨st.messages, sys, none, false⟩
    match client st.trace.length with
    | ClientResult.ok r => ⟨firstText r, st.trace ++ [final_params], st.round_count⟩
    | ClientResult.err =>
      ⟨"I apologize, but I encountered an error while generating the final response.",
        st.trace ++ [final_params], st.round_count⟩

/-- The whole of `_handle_tool_execution` (lines 106-191): run the loop
from round counter 0 with the messages of the base parameters, then
finalize.  `trace0` is the instrumented record of the calls already
issued (the initial call when invoked from `generate_response`). -/
def handle_tool_execution (client : Client) (tm : ToolManager) (base_params : ApiParams)
    (max_rounds : Nat) (initial_response : ModelResponse)
    (trace0 : List ApiParams) : GenOutcome :=
  handleFinal client base_params.system
    (handleLoop client tm base_params.system base_params.tools max_rounds max_rounds
      base_params.messages initial_response 0 trace0)

/-- The system content built at lines 77-81 (Python truthiness: an empty
history string behaves like an absent one). -/
def systemContent (conversation_history : Option String) : String :=
  if (conversation_history.getD "").isEmpty then SYSTEM_PROMPT
  else SYSTEM_PROMPT ++ "\n\nPrevious conversation:\n" ++ conversation_history.getD ""

/-- The initial `api_params` of `generate_response` (lines 84-93): the
`tools` key and the auto tool-choice directive are attached only when
the tool list is non-empty (Python truthiness of the `tools` value). -/
def initialParams (query : String) (conversation_history : Option String)
    (tools : List ToolSchema) : ApiParams :=
  if tools.isEmpty then
    ⟨[⟨"user", MsgContent.text query⟩], systemContent conversation_history, none, false⟩
  else
    ⟨[⟨"user", MsgContent.text query⟩], systemContent conversation_history, some tools, true⟩

/-- `generate_response` (lines 59-104).  `none` models the initial API
call raising to the caller (that call is outside any try block); on a
`tool_use` response with a tool manager present the source delegates to
`_handle_tool_execution` with the hard-coded `max_rounds=2` of line
101, and otherwise returns the first content block text directly. -/
def generate_response (client : Client) (query : String)
    (conversation_history : Option String) (tools : List ToolSchema)
    (tool_manager : Option ToolManager) : Option GenOutcome :=
  let api_params := initialParams query conversation_history tools
  match client 0 with
  | ClientResult.err => none
  | ClientResult.ok response =>
    match tool_manager with
    | some tm =>
      if response.stop_reason = "tool_use" then
        some (handle_tool_execution client tm api_params 2 response [api_params])
      else some ⟨firstText response, [api_params], 0⟩
    | none => some ⟨firstText response, [api_params], 0⟩

end AIGenerator

namespace SearchTools

/-- Modelled from the spec: metadata of one ranked match (course title
and optional lesson number) as returned by the Search Backend; the
backing `vector_store.py` is not under `src/`. -/
structure ChunkMeta where
  course_title : String
  lesson_number : Option Nat
  deriving Inhabited, DecidableEq

/-- Modelled from the spec: the result set of the Search Backend
(`vector_store.SearchResults`, not under `src/`): ranked match texts
with their metadata, or an error indicator.  Relevance scores are
omitted: no behavior of the spec reads them. -/
structure SearchResults where
  documents : List String
  metadata : List ChunkMeta
  error : Option String
  deriving Inhabited, DecidableEq

/-- Modelled from the spec: the Search Backend facade (`VectorStore`,
not under `src/`): ranked search plus per-lesson link resolution, where
`Except.error` models a raised exception during link resolution. -/
structure VectorStore where
  search : String → Option String → Option Nat → SearchResults
  get_lesson_link : String → Nat → Except Unit (Option String)

/-- Modelled from the spec: one recorded citation entry
(`{"text": ..., "link": ...}`). -/
structure Source where
  text : String
  link : Option String
  deriving Inhabited, DecidableEq

/-- Modelled from the spec: the four fixed zero-match templates of the
Content Search Tool, selected by which filters were supplied. -/
def emptyMessage (course_name : Option String) (lesson_number : Option Nat) : String :=
  match course_name, lesson_number with
  | none, none => "No relevant content found."
  | some c, none => "No relevant content found in course '" ++ c ++ "'."
  | none, some n => "No relevant content found in lesson " ++ toString n ++ "."
  | some c, some n =>
    "No relevant content found in course '" ++ c ++ "' in lesson " ++ toString n ++ "."

/-- Modelled from the spec: citation display text,
`<course> - Lesson <n>` when the match has a lesson number and
`<course>` otherwise. -/
def displayText (m : ChunkMeta) : String :=
  match m.lesson_number with
  | some n => m.course_title ++ " - Lesson " ++ toString n
  | none => m.course_title

/-- Modelled from the spec: per-match lesson link resolution; a raised
resolution error is caught and replaced by a null link for that match
only, and a match without a lesson number gets a null link. -/
def resolveLink (store : VectorStore) (m : ChunkMeta) : Option String :=
  match m.lesson_number with
  | some n =>
    match store.get_lesson_link m.course_title n with
    | Except.ok l => l
    | Except.error _ => none
  | none => none

/-- Modelled from the spec: the header line of one rendered match. -/
def matchHeader (m : ChunkMeta) : String :=
  match m.lesson_number with
  | some n => "[" ++ m.course_title ++ " - Lesson " ++ toString n ++ "]"
  | none => "[" ++ m.course_title ++ "]"

/-- Modelled from the spec: `CourseSearchTool.execute` of
`search_tools.py` (not under `src/`): delegate to the backend with the
three parameters unchanged; return a backend error text verbatim;
return one of the four fixed templates on zero matches; otherwise
render each match under its header and overwrite the citation slot with
one entry per match.  The second component is the new citation slot
content; `prior` is the incoming slot, kept on the error and zero-match
paths (the spec states the side effect only for the match path). -/
def executeSearch (store : VectorStore) (query : String)
    (course_name : Option String) (lesson_number : Option Nat)
    (prior : List Source) : String × List Source :=
  let results := store.search query course_name lesson_number
  match results.error with
  | some e => (e, prior)
  | none =>
    if results.documents.isEmpty then (emptyMessage course_name lesson_number, prior)
    else
      let ms := results.documents.zip results.metadata
      let rendered := ms.map (fun dm => matchHeader dm.2 ++ "\n" ++ dm.1)
      let sources := ms.map (fun dm => (⟨displayText dm.2, resolveLink store dm.2⟩ : Source))
      (String.intercalate "\n\n" rendered, sources)

/-- Modelled from the spec: arguments of one dispatched tool call. -/
structure ToolArgs where
  query : String
  course_name : Option String
  lesson_number : Option Nat
  deriving Inhabited, DecidableEq

/-- Modelled from the spec: one registered tool: a declared name plus an
execute function from arguments and the current citation slot to result
text and the new citation slot. -/
structure RegisteredTool where
  name : String
  run : ToolArgs → List Source → String × List Source

/-- Modelled from the spec: the Tool Registry (`ToolManager` of
`search_tools.py`, not under `src/`): the registered tools and the
single shared citation slot. -/
structure ToolManager where
  tools : List RegisteredTool
  last_sources : List Source

/-- Modelled from the spec: `dispatch(name, arguments)`: look the tool
up by its declared name; when absent, return the literal
`Tool not found` text with the requested name substituted, leaving the
registry untouched, instead of raising (the function is total, so no
exception can escape). -/
def ToolManager.execute_tool (m : ToolManager) (name : String) (args : ToolArgs) :
    String × ToolManager :=
  match m.tools.find? (fun t => t.name == name) with
  | none => ("Tool '" ++ name ++ "' not found", m)
  | some t =>
    let r := t.run args m.last_sources
    (r.1, ⟨m.tools, r.2⟩)

/-- Modelled from the spec: `resetCitations()` empties the citation
slot. -/
def ToolManager.reset_sources (m : ToolManager) : ToolManager :=
  ⟨m.tools, []⟩

/-- Modelled from the spec: `getLastCitations()` reads the citation
slot. -/
def ToolManager.get_last_sources (m : ToolManager) : List Source :=
  m.last_sources

/-- Modelled from the spec: the Content Search Tool registered under its
declared name `search_course_content`. -/
def courseSearchTool (store : VectorStore) : RegisteredTool :=
  ⟨"search_course_content", fun args prior =>
    executeSearch store args.query args.course_name args.lesson_number prior⟩

end SearchTools

namespace Demo

open AIGenerator

/-- A concrete tool-use content block. -/
def toolBlock : ContentBlock :=
  ⟨"tool_use", "", "search_course_content", [("query", "x")], "toolu_1"⟩

/-- A concrete response that requests tool use. -/
def toolResp : ModelResponse := ⟨"tool_use", [toolBlock]⟩

/-- A concrete final textual response. -/
def textResp : ModelResponse := ⟨"end_turn", [⟨"text", "final answer", "", [], ""⟩]⟩

/-- A concrete tool manager for the orchestrator. -/
def demoTM : AIGenerator.ToolManager := ⟨fun _ _ => "tool output"⟩

/-- A client whose every response requests tool use. -/
def loopClient : Client := fun _ => ClientResult.ok toolResp

/-- A client whose every call raises. -/
def failClient : Client := fun _ => ClientResult.err

/-- A client that requests tool use once and then answers. -/
def oneRoundClient : Client :=
  fun i => if i = 0 then ClientResult.ok toolResp else ClientResult.ok textResp

/-- A client that requests tool use twice and then answers. -/
def twoRoundClient : Client :=
  fun i => if i ≤ 1 then ClientResult.ok toolResp else ClientResult.ok textResp

/-- A client that answers directly. -/
def textClient : Client := fun _ => ClientResult.ok textResp

/-- A client whose calls 0 and 1 raise and whose later calls answer. -/
def lateClient : Client :=
  fun i => if i ≤ 1 then ClientResult.err else ClientResult.ok textResp

/-- A concrete tool schema. -/
def ts1 : ToolSchema := ⟨"search_course_content"⟩

/-- The initial call parameters of the demo query. -/
def demoBase : ApiParams := initialParams "q" none [ts1]

/-- The outcome of the demo query in which every response requests tool
use. -/
def demoOut : GenOutcome :=
  (generate_response loopClient "q" none [ts1] (some demoTM)).getD default

/-- A concrete transcript message. -/
def userMsg : Message := ⟨"user", MsgContent.text "q"⟩

open SearchTools

/-- A concrete backend that finds nothing and never errs. -/
def emptyStore : VectorStore :=
  ⟨fun _ _ _ => ⟨[], [], none⟩, fun _ _ => Except.ok none⟩

/-- A concrete backend returning two matches, one with a lesson number
and one without. -/
def twoMatchStore : VectorStore :=
  ⟨fun _ _ _ =>
      ⟨["Content 1", "Content 2"],
       [⟨"Course A", some 1⟩, ⟨"Course B", none⟩], none⟩,
   fun _ _ => Except.ok (some "https://link1.com")⟩

/-- A concrete registry holding only the Content Search Tool over the
two-match backend, with an empty citation slot. -/
def demoManager : SearchTools.ToolManager :=
  ⟨[courseSearchTool twoMatchStore], []⟩

/-- The registry state after one search-tool execution through the
registry. -/
def demoManagerAfter : SearchTools.ToolManager :=
  (demoManager.execute_tool "search_course_content" ⟨"test query", none, none⟩).2

/-- A concrete registry with no registered tools. -/
def emptyRegistry : SearchTools.ToolManager := ⟨[], []⟩

end Demo

namespace AIGenerator

/-- The loop never pushes the round counter past the configured
maximum: the counter is only incremented under the guard
`round_count < max_rounds`. -/
theorem handleLoop_round_count_le (client : Client) (tm : ToolManager) (sys : String)
    (bt : Option (List ToolSchema)) (mr : Nat) :
    ∀ (fuel : Nat) (msgs : List Message) (cur : ModelResponse) (rc : Nat)
      (trace : List ApiParams), rc ≤ mr →
      (handleLoop client tm sys bt mr fuel msgs cur rc trace).round_count ≤ mr := by
  intro fuel
  induction fuel with
  | zero =>
    intro msgs cur rc trace h
    simpa [handleLoop] using h
  | succ n ih =>
    intro msgs cur rc trace h
    rw [handleLoop]
    by_cases hc : rc < mr ∧ cur.stop_reason = "tool_use"
    · simp only [if_pos hc]
      by_cases h2 : mr ≤ rc + 1
      · simp only [if_pos h2]
        exact hc.1
      · simp only [if_neg h2]
        cases hcl : client trace.length with
        | err => simpa using hc.1
        | ok r =>
          exact ih _ _ _ _ (by omega)
    · simp only [if_neg hc]
      exact h

/-- The loop issues at most `max_rounds - round_count - 1` further
Generation Client calls: a call is made only between two rounds. -/
theorem handleLoop_trace_length_le (client : Client) (tm : ToolManager) (sys : String)
    (bt : Option (List ToolSchema)) (mr : Nat) :
    ∀ (fuel : Nat) (msgs : List Message) (cur : ModelResponse) (rc : Nat)
      (trace : List ApiParams),
      (handleLoop client tm sys bt mr fuel msgs cur rc trace).trace.length ≤
        trace.length + (mr - rc - 1) := by
  intro fuel
  induction fuel with
  | zero =>
    intro msgs cur rc trace
    simp [handleLoop]
  | succ n ih =>
    intro msgs cur rc trace
    rw [handleLoop]
    by_cases hc : rc < mr ∧ cur.stop_reason = "tool_use"
    · simp only [if_pos hc]
      by_cases h2 : mr ≤ rc + 1
      · simp only [if_pos h2]
        omega
      · simp only [if_neg h2]
        cases hcl : client trace.length with
        | err =>
          dsimp only
          simp [List.length_append]
          omega
        | ok r =>
          dsimp only
          refine le_trans (ih _ _ _ _) ?_
          simp [List.length_append]
          omega
    · simp only [if_neg hc]
      omega

/-- Finalization keeps the round counter and issues at most one more
Generation Client call. -/
theorem handleFinal_facts (client : Client) (sys : String) (st : LoopState) :
    (handleFinal client sys st).rounds = st.round_count ∧
      (handleFinal client sys st).trace.length ≤ st.trace.length + 1 := by
  unfold handleFinal
  by_cases h : st.current.stop_reason ≠ "tool_use"
  · simp [h]
  · simp only [if_neg h]
    cases hcl : client st.trace.length with
    | ok r => simp
    | err => simp

/-- Global bound of one `_handle_tool_execution` run: the round counter
stays at or below the configured maximum and, when that maximum is
positive, at most `max_rounds` Generation Client calls are added to the
calls already issued. -/
theorem handle_tool_execution_bounds (client : Client) (tm : ToolManager)
    (base : ApiParams) (mr : Nat) (resp : ModelResponse) (trace0 : List ApiParams)
    (hmr : 1 ≤ mr) :
    (handle_tool_execution client tm base mr resp trace0).rounds ≤ mr ∧
      (handle_tool_execution client tm base mr resp trace0).trace.length ≤
        trace0.length + mr := by
  unfold handle_tool_execution
  have hrc := handleLoop_round_count_le client tm base.system base.tools mr mr
    base.messages resp 0 trace0 (Nat.zero_le mr)
  have htr := handleLoop_trace_length_le client tm base.system base.tools mr mr
    base.messages resp 0 trace0
  have hfin := handleFinal_facts client base.system
    (handleLoop client tm base.system base.tools mr mr base.messages resp 0 trace0)
  constructor
  · rw [hfin.1]
    exact hrc
  · calc (handleFinal client base.system _).trace.length ≤ _ + 1 := hfin.2
    _ ≤ trace0.length + mr := by omega

end AIGenerator

open AIGenerator

/-- C1: for every single top-level query with configured maximum rounds
R (at least one round, the parameter of `_handle_tool_execution`), the
round counter of the run never exceeds R and at most R + 1 Generation
Client calls are issued in total, the initial call of
`generate_response` included, even when every response through round R
requests tool use. -/
theorem claim_C1 (client : Client) (tm : AIGenerator.ToolManager) (base : ApiParams)
    (mr : Nat) (resp : ModelResponse) (init : ApiParams) (hmr : 1 ≤ mr) :
    (handle_tool_execution client tm base mr resp [init]).rounds ≤ mr ∧
      (handle_tool_execution client tm base mr resp [init]).trace.length ≤ mr + 1 := by
  obtain ⟨h1, h2⟩ := handle_tool_execution_bounds client tm base mr resp [init] hmr
  refine ⟨h1, ?_⟩
  simpa [Nat.add_comm] using h2

/-- Witness for C1 at a concrete query whose model responses all request
tool use. -/
theorem claim_C1_witness :
    (handle_tool_execution Demo.loopClient Demo.demoTM Demo.demoBase 2 Demo.toolResp
        [Demo.demoBase]).rounds ≤ 2 ∧
      (handle_tool_execution Demo.loopClient Demo.demoTM Demo.demoBase 2 Demo.toolResp
        [Demo.demoBase]).trace.length ≤ 3 :=
  claim_C1 Demo.loopClient Demo.demoTM Demo.demoBase 2 Demo.toolResp Demo.demoBase
    (by decide)

/-- C5: if the model response at round k requests no tool use, exactly k
Generation Client calls are made in total and the text returned to the
caller is that response's first content block text verbatim; stated for
each round of the public operation (whose configured maximum is 2): a
first response without tool use yields one call, a second response
without tool use yields two calls, and a third response (after two
tool-use rounds) yields three calls. -/
theorem claim_C5 (client : Client) (q : String) (h : Option String)
    (ts : List ToolSchema) :
    (∀ (tmo : Option AIGenerator.ToolManager) (r0 : ModelResponse),
      client 0 = ClientResult.ok r0 → r0.stop_reason ≠ "tool_use" →
      generate_response client q h ts tmo =
        some ⟨firstText r0, [initialParams q h ts], 0⟩) ∧
    (∀ (tm : AIGenerator.ToolManager) (r0 r1 : ModelResponse),
      client 0 = ClientResult.ok r0 → r0.stop_reason = "tool_use" →
      client 1 = ClientResult.ok r1 → r1.stop_reason ≠ "tool_use" →
      ∃ ps : List ApiParams,
        generate_response client q h ts (some tm) = some ⟨firstText r1, ps, 1⟩ ∧
          ps.length = 2) ∧
    (∀ (tm : AIGenerator.ToolManager) (r0 r1 r2 : ModelResponse),
      client 0 = ClientResult.ok r0 → r0.stop_reason = "tool_use" →
      client 1 = ClientResult.ok r1 → r1.stop_reason = "tool_use" →
      client 2 = ClientResult.ok r2 → r2.stop_reason ≠ "tool_use" →
      ∃ ps : List ApiParams,
        generate_response client q h ts (some tm) = some ⟨firstText r2, ps, 2⟩ ∧
          ps.length = 3) := by
  refine ⟨?_, ?_, ?_⟩
  · intro tmo r0 h0 hs0
    cases tmo with
    | none => simp [generate_response, h0]
    | some tm => simp [generate_response, h0, hs0]
  · intro tm r0 r1 h0 hs0 h1 hs1
    simp only [generate_response, h0, hs0, if_pos rfl, handle_tool_execution]
    rw [handleLoop]
    simp only [hs0, handleLoop, handleFinal, h1, hs1]
    simp [h1, hs1]
  · intro tm r0 r1 r2 h0 hs0 h1 hs1 h2 hs2
    simp only [generate_response, h0, hs0, if_pos rfl, handle_tool_execution]
    rw [handleLoop]
    simp only [hs0, handleLoop, handleFinal, h1, hs1, h2]
    simp [h1, hs1, h2, hs2]

/-- Witness for C5 at concrete queries answering after zero, one and two
tool rounds. -/
theorem claim_C5_witness :
    generate_response Demo.textClient "q" none [] (some Demo.demoTM) =
      some ⟨firstText Demo.textResp, [initialParams "q" none []], 0⟩ ∧
    (∃ ps : List ApiParams,
      generate_response Demo.oneRoundClient "q" none [Demo.ts1] (some Demo.demoTM) =
        some ⟨firstText Demo.textResp, ps, 1⟩ ∧ ps.length = 2) ∧
    (∃ ps : List ApiParams,
      generate_response Demo.twoRoundClient "q" none [Demo.ts1] (some Demo.demoTM) =
        some ⟨firstText Demo.textResp, ps, 2⟩ ∧ ps.length = 3) :=
  ⟨(claim_C5 Demo.textClient "q" none []).1 (some Demo.demoTM) Demo.textResp rfl
      (by decide),
   (claim_C5 Demo.oneRoundClient "q" none [Demo.ts1]).2.1 Demo.demoTM Demo.toolResp
      Demo.textResp rfl rfl rfl (by decide),
   (claim_C5 Demo.twoRoundClient "q" none [Demo.ts1]).2.2 Demo.demoTM Demo.toolResp
      Demo.toolResp Demo.textResp rfl rfl rfl rfl rfl (by decide)⟩

/-- C10: when the first response has stop reason `tool_use` but no tool
manager was supplied, no tool is dispatched and no further Generation
Client call is made: the function returns the text attribute of the
first content block of that tool-use response, with one issued call and
the round counter at zero. -/
theorem claim_C10 (client : Client) (q : String) (h : Option String)
    (ts : List ToolSchema) (r : ModelResponse)
    (h0 : client 0 = ClientResult.ok r) (_hstop : r.stop_reason = "tool_use") :
    generate_response client q h ts none =
      some ⟨firstText r, [initialParams q h ts], 0⟩ := by
  simp [generate_response, h0]

/-- Witness for C10 at a concrete tool-use response with no tool
manager. -/
theorem claim_C10_witness :
    generate_response Demo.loopClient "q" none [] none =
      some ⟨firstText Demo.toolResp, [initialParams "q" none []], 0⟩ :=
  claim_C10 Demo.loopClient "q" none [] Demo.toolResp rfl rfl

/-- C2: in a dispatch batch, every `tool_use` request of the response is
dispatched sequentially in the order it appears and receives exactly one
result whose id matches the request id and whose content is the tool
manager's output for that request; the loop then appends one assistant
turn (the tool-call requests) followed by one tool-result turn (all
results of the batch) to the transcript, increments the round counter
exactly once for the whole batch, and only then issues the next
Generation Client call, whose recorded parameters carry that extended
transcript. -/
theorem claim_C2 (tm : AIGenerator.ToolManager) (content : List ContentBlock) :
    (toolResultsOf tm content).length = (toolUseBlocks content).length ∧
    (∀ (i : Nat) (h1 : i < (toolUseBlocks content).length)
        (h2 : i < (toolResultsOf tm content).length),
      ((toolResultsOf tm content).get ⟨i, h2⟩).tool_use_id =
          ((toolUseBlocks content).get ⟨i, h1⟩).id ∧
        ((toolResultsOf tm content).get ⟨i, h2⟩).content =
          tm.execute_tool ((toolUseBlocks content).get ⟨i, h1⟩).name
            ((toolUseBlocks content).get ⟨i, h1⟩).input) ∧
    (∀ (client : Client) (sys : String) (bt : Option (List ToolSchema))
        (mr fuel rc : Nat) (msgs : List Message) (cur : ModelResponse)
        (trace : List ApiParams) (r : ModelResponse),
      cur.content = content → cur.stop_reason = "tool_use" → rc + 1 < mr →
      (toolResultsOf tm content).isEmpty = false →
      client trace.length = ClientResult.ok r →
      handleLoop client tm sys bt mr (fuel + 1) msgs cur rc trace =
        handleLoop client tm sys bt mr fuel
          (msgs ++ [⟨"assistant", MsgContent.blocks content⟩,
            ⟨"user", MsgContent.results (toolResultsOf tm content)⟩])
          r (rc + 1)
          (trace ++ [⟨msgs ++ [⟨"assistant", MsgContent.blocks content⟩,
              ⟨"user", MsgContent.results (toolResultsOf tm content)⟩],
            sys, some (bt.getD []), true⟩])) := by
  refine ⟨by simp [toolResultsOf], ?_, ?_⟩
  · intro i h1 h2
    simp [toolResultsOf, List.get_eq_getElem, List.getElem_map]
  · intro client sys bt mr fuel rc msgs cur trace r hcc hs hlt hne hcl
    subst hcc
    have hrc : rc < mr := by omega
    have h2 : ¬ mr ≤ rc + 1 := by omega
    rw [handleLoop]
    simp [hrc, hs, h2, hne, hcl, List.append_assoc]

/-- Witness for C2 at a concrete single-request batch. -/
theorem claim_C2_witness :
    (toolResultsOf Demo.demoTM [Demo.toolBlock]).length =
        (toolUseBlocks [Demo.toolBlock]).length ∧
      ((toolResultsOf Demo.demoTM [Demo.toolBlock]).get ⟨0, by decide⟩).tool_use_id =
        ((toolUseBlocks [Demo.toolBlock]).get ⟨0, by decide⟩).id ∧
      handleLoop Demo.loopClient Demo.demoTM "s" none 2 1 [] Demo.toolResp 0 [] =
        handleLoop Demo.loopClient Demo.demoTM "s" none 2 0
          ([] ++ [⟨"assistant", MsgContent.blocks [Demo.toolBlock]⟩,
            ⟨"user", MsgContent.results (toolResultsOf Demo.demoTM [Demo.toolBlock])⟩])
          Demo.toolResp 1
          ([] ++ [⟨[] ++ [⟨"assistant", MsgContent.blocks [Demo.toolBlock]⟩,
              ⟨"user", MsgContent.results (toolResultsOf Demo.demoTM [Demo.toolBlock])⟩],
            "s", some (Option.getD none []), true⟩]) :=
  ⟨(claim_C2 Demo.demoTM [Demo.toolBlock]).1,
   ((claim_C2 Demo.demoTM [Demo.toolBlock]).2.1 0 (by decide) (by decide)).1,
   (claim_C2 Demo.demoTM [Demo.toolBlock]).2.2 Demo.loopClient "s" none 2 0 0 []
     Demo.toolResp [] Demo.toolResp rfl rfl (by decide) (by decide) rfl⟩

/-- C3: if the Generation Client continuation call made during the
dispatch loop fails, the loop stops immediately with the transcript
accumulated so far, including the tool results of the round already
dispatched; finalization then attempts exactly one no-tools call with
that transcript, returning its text when it succeeds, and when it also
fails returns exactly the fixed apology string instead of raising. -/
theorem claim_C3 (client : Client) (tm : AIGenerator.ToolManager) (sys : String)
    (bt : Option (List ToolSchema)) (mr fuel rc : Nat) (msgs : List Message)
    (cur : ModelResponse) (trace : List ApiParams)
    (hs : cur.stop_reason = "tool_use") (hlt : rc + 1 < mr)
    (hne : (toolResultsOf tm cur.content).isEmpty = false)
    (herr : client trace.length = ClientResult.err) :
    handleLoop client tm sys bt mr (fuel + 1) msgs cur rc trace =
      ⟨msgs ++ [⟨"assistant", MsgContent.blocks cur.content⟩,
          ⟨"user", MsgContent.results (toolResultsOf tm cur.content)⟩], cur, rc + 1,
        trace ++ [⟨msgs ++ [⟨"assistant", MsgContent.blocks cur.content⟩,
            ⟨"user", MsgContent.results (toolResultsOf tm cur.content)⟩],
          sys, some (bt.getD []), true⟩]⟩ ∧
    (client (trace.length + 1) = ClientResult.err →
      handleFinal client sys
          ⟨msgs ++ [⟨"assistant", MsgContent.blocks cur.content⟩,
              ⟨"user", MsgContent.results (toolResultsOf tm cur.content)⟩], cur, rc + 1,
            trace ++ [⟨msgs ++ [⟨"assistant", MsgContent.blocks cur.content⟩,
                ⟨"user", MsgContent.results (toolResultsOf tm cur.content)⟩],
              sys, some (bt.getD []), true⟩]⟩ =
        ⟨"I apologize, but I encountered an error while generating the final response.",
          trace ++ [⟨msgs ++ [⟨"assistant", MsgContent.blocks cur.content⟩,
              ⟨"user", MsgContent.results (toolResultsOf tm cur.content)⟩],
            sys, some (bt.getD []), true⟩,
            ⟨msgs ++ [⟨"assistant", MsgContent.blocks cur.content⟩,
              ⟨"user", MsgContent.results (toolResultsOf tm cur.content)⟩],
            sys, none, false⟩], rc + 1⟩) ∧
    (∀ r2 : ModelResponse, client (trace.length + 1) = ClientResult.ok r2 →
      handleFinal client sys
          ⟨msgs ++ [⟨"assistant", MsgContent.blocks cur.content⟩,
              ⟨"user", MsgContent.results (toolResultsOf tm cur.content)⟩], cur, rc + 1,
            trace ++ [⟨msgs ++ [⟨"assistant", MsgContent.blocks cur.content⟩,
                ⟨"user", MsgContent.results (toolResultsOf tm cur.content)⟩],
              sys, some (bt.getD []), true⟩]⟩ =
        ⟨firstText r2,
          trace ++ [⟨msgs ++ [⟨"assistant", MsgContent.blocks cur.content⟩,
              ⟨"user", MsgContent.results (toolResultsOf tm cur.content)⟩],
            sys, some (bt.getD []), true⟩,
            ⟨msgs ++ [⟨"assistant", MsgContent.blocks cur.content⟩,
              ⟨"user", MsgContent.results (toolResultsOf tm cur.content)⟩],
            sys, none, false⟩], rc + 1⟩) := by
  have hrc : rc < mr := by omega
  have h2 : ¬ mr ≤ rc + 1 := by omega
  refine ⟨?_, ?_, ?_⟩
  · rw [handleLoop]
    simp [hrc, hs, h2, hne, herr, List.append_assoc]
  · intro herr2
    simp [handleFinal, hs, herr2, List.append_assoc]
  · intro r2 hok2
    simp [handleFinal, hs, hok2, List.append_assoc]

/-- Witness for C3 at concrete runs whose continuation call fails: one
whose finalizing call also fails and one whose finalizing call
succeeds. -/
theorem claim_C3_witness :
    handleLoop Demo.failClient Demo.demoTM "s" none 2 1 [Demo.userMsg] Demo.toolResp 0
        [Demo.demoBase] =
      ⟨[Demo.userMsg] ++ [⟨"assistant", MsgContent.blocks Demo.toolResp.content⟩,
          ⟨"user", MsgContent.results (toolResultsOf Demo.demoTM Demo.toolResp.content)⟩],
        Demo.toolResp, 1,
        [Demo.demoBase] ++ [⟨[Demo.userMsg] ++ [⟨"assistant",
            MsgContent.blocks Demo.toolResp.content⟩,
            ⟨"user", MsgContent.results (toolResultsOf Demo.demoTM Demo.toolResp.content)⟩],
          "s", some (Option.getD none []), true⟩]⟩ ∧
    handleFinal Demo.failClient "s"
        ⟨[Demo.userMsg] ++ [⟨"assistant", MsgContent.blocks Demo.toolResp.content⟩,
            ⟨"user", MsgContent.results (toolResultsOf Demo.demoTM Demo.toolResp.content)⟩],
          Demo.toolResp, 1,
          [Demo.demoBase] ++ [⟨[Demo.userMsg] ++ [⟨"assistant",
              MsgContent.blocks Demo.toolResp.content⟩,
              ⟨"user", MsgContent.results (toolResultsOf Demo.demoTM Demo.toolResp.content)⟩],
            "s", some (Option.getD none []), true⟩]⟩ =
      ⟨"I apologize, but I encountered an error while generating the final response.",
        [Demo.demoBase] ++ [⟨[Demo.userMsg] ++ [⟨"assistant",
            MsgContent.blocks Demo.toolResp.content⟩,
            ⟨"user", MsgContent.results (toolResultsOf Demo.demoTM Demo.toolResp.content)⟩],
          "s", some (Option.getD none []), true⟩,
          ⟨[Demo.userMsg] ++ [⟨"assistant", MsgContent.blocks Demo.toolResp.content⟩,
            ⟨"user", MsgContent.results (toolResultsOf Demo.demoTM Demo.toolResp.content)⟩],
          "s", none, false⟩], 1⟩ ∧
    handleFinal Demo.lateClient "s"
        ⟨[Demo.userMsg] ++ [⟨"assistant", MsgContent.blocks Demo.toolResp.content⟩,
            ⟨"user", MsgContent.results (toolResultsOf Demo.demoTM Demo.toolResp.content)⟩],
          Demo.toolResp, 1,
          [Demo.demoBase] ++ [⟨[Demo.userMsg] ++ [⟨"assistant",
              MsgContent.blocks Demo.toolResp.content⟩,
              ⟨"user", MsgContent.results (toolResultsOf Demo.demoTM Demo.toolResp.content)⟩],
            "s", some (Option.getD none []), true⟩]⟩ =
      ⟨firstText Demo.textResp,
        [Demo.demoBase] ++ [⟨[Demo.userMsg] ++ [⟨"assistant",
            MsgContent.blocks Demo.toolResp.content⟩,
            ⟨"user", MsgContent.results (toolResultsOf Demo.demoTM Demo.toolResp.content)⟩],
          "s", some (Option.getD none []), true⟩,
          ⟨[Demo.userMsg] ++ [⟨"assistant", MsgContent.blocks Demo.toolResp.content⟩,
            ⟨"user", MsgContent.results (toolResultsOf Demo.demoTM Demo.toolResp.content)⟩],
          "s", none, false⟩], 1⟩ :=
  ⟨(claim_C3 Demo.failClient Demo.demoTM "s" none 2 0 0 [Demo.userMsg] Demo.toolResp
      [Demo.demoBase] rfl (by decide) (by decide) rfl).1,
   (claim_C3 Demo.failClient Demo.demoTM "s" none 2 0 0 [Demo.userMsg] Demo.toolResp
      [Demo.demoBase] rfl (by decide) (by decide) rfl).2.1 rfl,
   (claim_C3 Demo.lateClient Demo.demoTM "s" none 2 0 0 [Demo.userMsg] Demo.toolResp
      [Demo.demoBase] rfl (by decide) (by decide) rfl).2.2 Demo.textResp rfl⟩

/-- C4: when the round counter reaches the configured maximum while the
model is still requesting tool use, the loop breaks without issuing a
continuation call, and finalization issues exactly one more Generation
Client call whose recorded parameters carry the full transcript and no
tool schemas, returning that call's text as the answer. -/
theorem claim_C4 (client : Client) (tm : AIGenerator.ToolManager) (sys : String)
    (bt : Option (List ToolSchema)) (mr fuel rc : Nat) (msgs : List Message)
    (cur : ModelResponse) (trace : List ApiParams)
    (hs : cur.stop_reason = "tool_use") (hrc : rc < mr) (hmax : mr ≤ rc + 1)
    (hne : (toolResultsOf tm cur.content).isEmpty = false) :
    handleLoop client tm sys bt mr (fuel + 1) msgs cur rc trace =
      ⟨msgs ++ [⟨"assistant", MsgContent.blocks cur.content⟩,
          ⟨"user", MsgContent.results (toolResultsOf tm cur.content)⟩], cur, rc + 1,
        trace⟩ ∧
    (∀ r : ModelResponse, client trace.length = ClientResult.ok r →
      handleFinal client sys
          ⟨msgs ++ [⟨"assistant", MsgContent.blocks cur.content⟩,
              ⟨"user", MsgContent.results (toolResultsOf tm cur.content)⟩], cur, rc + 1,
            trace⟩ =
        ⟨firstText r,
          trace ++ [⟨msgs ++ [⟨"assistant", MsgContent.blocks cur.content⟩,
              ⟨"user", MsgContent.results (toolResultsOf tm cur.content)⟩],
            sys, none, false⟩], rc + 1⟩) := by
  refine ⟨?_, ?_⟩
  · rw [handleLoop]
    simp [hrc, hs, hmax, hne, List.append_assoc]
  · intro r hok
    simp [handleFinal, hs, hok, List.append_assoc]

/-- C6, counterexample to the claim as stated: the maximum number of
tool-calling rounds is not configurable by a caller of the public
`generate_response` operation.  On a concrete client whose every
response requests tool use, the public operation issues exactly 3 calls
and stops at round 2 — the hard-coded constant of line 101 — while the
internal handler configured with a maximum of 3 on the same starting
state issues 4 calls and reaches round 3, an outcome no argument of the
public operation can produce. -/
theorem claim_C6_counterexample :
    (generate_response Demo.loopClient "q" none [Demo.ts1] (some Demo.demoTM)).map
        (fun o => (o.trace.length, o.rounds)) = some (3, 2) ∧
      (handle_tool_execution Demo.loopClient Demo.demoTM Demo.demoBase 3 Demo.toolResp
        [Demo.demoBase]).trace.length = 4 ∧
      (handle_tool_execution Demo.loopClient Demo.demoTM Demo.demoBase 3 Demo.toolResp
        [Demo.demoBase]).rounds = 3 :=
  ⟨rfl, rfl, rfl⟩

/-- C6, amended: the maximum number of tool-calling rounds defaults to 2
as a parameter of the internal tool-execution handler, but the public
generate operation passes the hard constant 2, so every call through
the public operation is capped at 2 rounds and 3 Generation Client
calls whatever its arguments, and a caller of the public operation
cannot configure the maximum. -/
theorem claim_C6 (client : Client) (q : String) (h : Option String)
    (ts : List ToolSchema) (tmo : Option AIGenerator.ToolManager) (out : GenOutcome)
    (hout : generate_response client q h ts tmo = some out) :
    out.rounds ≤ 2 ∧ out.trace.length ≤ 3 := by
  cases hc : client 0 with
  | err => simp [generate_response, hc] at hout
  | ok r =>
    cases tmo with
    | none =>
      simp [generate_response, hc] at hout
      subst hout
      simp
    | some tm =>
      by_cases hs : r.stop_reason = "tool_use"
      · simp [generate_response, hc, hs] at hout
        subst hout
        have hb := handle_tool_execution_bounds client tm (initialParams q h ts) 2 r
          [initialParams q h ts] (by decide)
        refine ⟨hb.1, ?_⟩
        have := hb.2
        simpa using this
      · simp [generate_response, hc, hs] at hout
        subst hout
        simp

/-- Witness for C6 (amended) at the concrete always-tool-use query. -/
theorem claim_C6_witness :
    Demo.demoOut.rounds ≤ 2 ∧ Demo.demoOut.trace.length ≤ 3 :=
  claim_C6 Demo.loopClient "q" none [Demo.ts1] (some Demo.demoTM) Demo.demoOut rfl

/-- Witness for C4 at a concrete run whose second round still requests
tool use under the default maximum of two rounds. -/
theorem claim_C4_witness :
    handleLoop Demo.textClient Demo.demoTM "s" none 2 1 [Demo.userMsg] Demo.toolResp 1
        [Demo.demoBase, Demo.demoBase] =
      ⟨[Demo.userMsg] ++ [⟨"assistant", MsgContent.blocks Demo.toolResp.content⟩,
          ⟨"user", MsgContent.results (toolResultsOf Demo.demoTM Demo.toolResp.content)⟩],
        Demo.toolResp, 2, [Demo.demoBase, Demo.demoBase]⟩ ∧
    handleFinal Demo.textClient "s"
        ⟨[Demo.userMsg] ++ [⟨"assistant", MsgContent.blocks Demo.toolResp.content⟩,
            ⟨"user", MsgContent.results (toolResultsOf Demo.demoTM Demo.toolResp.content)⟩],
          Demo.toolResp, 2, [Demo.demoBase, Demo.demoBase]⟩ =
      ⟨firstText Demo.textResp,
        [Demo.demoBase, Demo.demoBase] ++ [⟨[Demo.userMsg] ++ [⟨"assistant",
            MsgContent.blocks Demo.toolResp.content⟩,
            ⟨"user", MsgContent.results (toolResultsOf Demo.demoTM Demo.toolResp.content)⟩],
          "s", none, false⟩], 2⟩ :=
  ⟨(claim_C4 Demo.textClient Demo.demoTM "s" none 2 0 1 [Demo.userMsg] Demo.toolResp
      [Demo.demoBase, Demo.demoBase] rfl (by decide) (by decide) (by decide)).1,
   (claim_C4 Demo.textClient Demo.demoTM "s" none 2 0 1 [Demo.userMsg] Demo.toolResp
      [Demo.demoBase, Demo.demoBase] rfl (by decide) (by decide) (by decide)).2
     Demo.textResp rfl⟩


/-- C7: when the Search Backend returns zero matches and no error, the
Content Search Tool returns exactly one of the four fixed templates,
selected by which filters were supplied. -/
theorem claim_C7 (store : SearchTools.VectorStore) (q cn : String) (n : Nat)
    (slot : List SearchTools.Source) :
    (store.search q none none = ⟨[], [], none⟩ →
      (SearchTools.executeSearch store q none none slot).1 =
        "No relevant content found.") ∧
    (store.search q (some cn) none = ⟨[], [], none⟩ →
      (SearchTools.executeSearch store q (some cn) none slot).1 =
        "No relevant content found in course '" ++ cn ++ "'.") ∧
    (store.search q none (some n) = ⟨[], [], none⟩ →
      (SearchTools.executeSearch store q none (some n) slot).1 =
        "No relevant content found in lesson " ++ toString n ++ ".") ∧
    (store.search q (some cn) (some n) = ⟨[], [], none⟩ →
      (SearchTools.executeSearch store q (some cn) (some n) slot).1 =
        "No relevant content found in course '" ++ cn ++ "' in lesson " ++
          toString n ++ ".") := by
  refine ⟨?_, ?_, ?_, ?_⟩ <;> intro hsearch <;>
    simp [SearchTools.executeSearch, hsearch, SearchTools.emptyMessage]

/-- Witness for C7 at a concrete backend that finds nothing, with the
four literal user-facing strings. -/
theorem claim_C7_witness :
    (SearchTools.executeSearch Demo.emptyStore "t" none none []).1 =
        "No relevant content found." ∧
      (SearchTools.executeSearch Demo.emptyStore "t" (some "Test Course") none []).1 =
        "No relevant content found in course 'Test Course'." ∧
      (SearchTools.executeSearch Demo.emptyStore "t" none (some 99) []).1 =
        "No relevant content found in lesson 99." ∧
      (SearchTools.executeSearch Demo.emptyStore "t" (some "Test Course") (some 1) []).1 =
        "No relevant content found in course 'Test Course' in lesson 1." := by
  exact ⟨(claim_C7 Demo.emptyStore "t" "Test Course" 99 []).1 rfl,
    (claim_C7 Demo.emptyStore "t" "Test Course" 99 []).2.1 rfl,
    (claim_C7 Demo.emptyStore "t" "Test Course" 99 []).2.2.1 rfl,
    (claim_C7 Demo.emptyStore "t" "Test Course" 1 []).2.2.2 rfl⟩

/-- C8: after a Content Search Tool execution through the registry that
produces N matches, the citation slot of the registry contains exactly
N entries, each whose display text is `<course> - Lesson <n>` when the
match has a lesson number and `<course>` otherwise and whose link is
the per-match resolution result (a resolved link or null); resetting
the citations afterwards leaves the slot empty. -/
theorem claim_C8 (store : SearchTools.VectorStore) (q : String) (c : Option String)
    (l : Option Nat) (docs : List String) (mds : List SearchTools.ChunkMeta)
    (slot0 : List SearchTools.Source)
    (hsearch : store.search q c l = ⟨docs, mds, none⟩)
    (hne : docs.isEmpty = false)
    (m2 : SearchTools.ToolManager)
    (hm2 : m2 = (SearchTools.ToolManager.execute_tool
        ⟨[SearchTools.courseSearchTool store], slot0⟩ "search_course_content"
        ⟨q, c, l⟩).2) :
    m2.last_sources.length = (docs.zip mds).length ∧
    (∀ (i : Nat) (h1 : i < m2.last_sources.length) (h2 : i < (docs.zip mds).length),
      (m2.last_sources.get ⟨i, h1⟩).text =
          (match ((docs.zip mds).get ⟨i, h2⟩).2.lesson_number with
           | some k =>
             ((docs.zip mds).get ⟨i, h2⟩).2.course_title ++ " - Lesson " ++ toString k
           | none => ((docs.zip mds).get ⟨i, h2⟩).2.course_title) ∧
        (m2.last_sources.get ⟨i, h1⟩).link =
          SearchTools.resolveLink store ((docs.zip mds).get ⟨i, h2⟩).2) ∧
    m2.reset_sources.last_sources = [] := by
  have hd : docs ≠ [] := by
    intro hnil
    subst hnil
    simp at hne
  have hrun : m2.last_sources = (docs.zip mds).map
      (fun dm => (⟨SearchTools.displayText dm.2, SearchTools.resolveLink store dm.2⟩ :
        SearchTools.Source)) := by
    subst hm2
    simp [SearchTools.ToolManager.execute_tool, SearchTools.courseSearchTool,
      SearchTools.executeSearch, hsearch, hne, hd]
  refine ⟨?_, ?_, ?_⟩
  · rw [hrun]
    simp
  · intro i h1 h2
    simp only [List.get_eq_getElem]
    rw [List.getElem_of_eq hrun h1]
    simp [List.getElem_map, SearchTools.displayText]
  · subst hm2
    rfl

/-- Witness for C8 at a concrete two-match execution: two entries, one
with a lesson-number display text and resolved link and one with a bare
course title and null link, and an empty slot after reset. -/
theorem claim_C8_witness :
    Demo.demoManagerAfter.last_sources.length =
        ((["Content 1", "Content 2"]).zip
          [(⟨"Course A", some 1⟩ : SearchTools.ChunkMeta), ⟨"Course B", none⟩]).length ∧
      (Demo.demoManagerAfter.last_sources.get ⟨0, by decide⟩).text =
        "Course A - Lesson 1" ∧
      (Demo.demoManagerAfter.last_sources.get ⟨0, by decide⟩).link =
        some "https://link1.com" ∧
      (Demo.demoManagerAfter.last_sources.get ⟨1, by decide⟩).text = "Course B" ∧
      (Demo.demoManagerAfter.last_sources.get ⟨1, by decide⟩).link = none ∧
      Demo.demoManagerAfter.reset_sources.last_sources = [] := by
  have H := claim_C8 Demo.twoMatchStore "test query" none none
    ["Content 1", "Content 2"] [⟨"Course A", some 1⟩, ⟨"Course B", none⟩] []
    rfl rfl Demo.demoManagerAfter rfl
  exact ⟨H.1, (H.2.1 0 (by decide) (by decide)).1, (H.2.1 0 (by decide) (by decide)).2,
    (H.2.1 1 (by decide) (by decide)).1, (H.2.1 1 (by decide) (by decide)).2, H.2.2⟩

/-- C9: dispatching a name that is not registered in the Tool Registry,
with any arguments, returns exactly the literal text naming the missing
tool and leaves the registry untouched; the dispatch function is total,
so no exception is raised. -/
theorem claim_C9 (m : SearchTools.ToolManager) (name : String)
    (args : SearchTools.ToolArgs)
    (habs : m.tools.find? (fun t => t.name == name) = none) :
    (m.execute_tool name args).1 = "Tool '" ++ name ++ "' not found" ∧
      (m.execute_tool name args).2 = m := by
  simp [SearchTools.ToolManager.execute_tool, habs]

/-- Witness for C9 at a registry without the requested tool. -/
theorem claim_C9_witness :
    (Demo.emptyRegistry.execute_tool "unknown" ⟨"test", none, none⟩).1 =
        "Tool 'unknown' not found" ∧
      (Demo.emptyRegistry.execute_tool "unknown" ⟨"test", none, none⟩).2 =
        Demo.emptyRegistry := by
  exact claim_C9 Demo.emptyRegistry "unknown" ⟨"test", none, none⟩ rfl
